import Mathlib

/-!
Shallow embedding of the log-tailing subsystem of `src/commands.ts`
(the `logs` command): the dedup cache, the batch printer `printLogs`,
the entry renderer, the severity colour map, the fetch-error handling of
`fetchAndPrintLogs`, and the watch-mode poll loop parameters.

JavaScript specifics that the embedding keeps:
* `logEntryCache` and `coloredStringMap` are plain objects, so property
  reads fall through to `Object.prototype`; lookups of keys such as
  `"toString"` therefore hit inherited (truthy) members.
* assignment `obj["__proto__"] = true` does not create an own property
  (the inherited `__proto__` setter ignores non-object values).
* `padEnd` (the `string.prototype.padend` shim) pads with spaces up to
  the requested length and returns the string unchanged when it is
  already long enough.
* `||` chains select the first truthy operand; for strings truthy means
  non-empty.
-/

/-- The own property names of `Object.prototype` in Node: a property read
on a plain object with one of these keys returns a truthy inherited value
even when the object has no own property of that name. -/
def objectProtoProps : List String :=
  ["constructor", "hasOwnProperty", "isPrototypeOf", "propertyIsEnumerable",
   "toLocaleString", "toString", "valueOf", "__defineGetter__",
   "__defineSetter__", "__lookupGetter__", "__lookupSetter__", "__proto__"]

/-- Whether a string names an inherited `Object.prototype` member. -/
def isProtoProp (s : String) : Bool := s ∈ objectProtoProps

/-- `logEntryCache` (src/commands.ts line 338): a plain-object map from
insertion id to `true`.  `keys` are the own properties added so far. -/
structure DedupCache where
  keys : List String
deriving DecidableEq

/-- The fresh cache created at the start of every `logs` invocation. -/
def emptyCache : DedupCache := ⟨[]⟩

/-- Truthiness of `logEntryCache[insertId]` (line 380): an own key added
earlier, or an inherited `Object.prototype` member (always truthy). -/
def cacheLookupTruthy (c : DedupCache) (id : String) : Bool :=
  if id ∈ c.keys then true else isProtoProp id

/-- `logEntryCache[insertId] = true` (line 382).  For the key
`"__proto__"` the inherited setter swallows the non-object value and no
own property is created; every other key becomes an own property. -/
def cacheMark (c : DedupCache) (id : String) : DedupCache :=
  if id = "__proto__" then c else ⟨id :: c.keys⟩

/-- The `protoPayload` object of a log entry, as far as `printLogs` reads
it: its `"@type"` tag (line 362) and its `methodName` (line 364). -/
structure ProtoPayload where
  atType : Option String
  methodName : String
deriving DecidableEq

/-- One StackDriver log entry as destructured on line 347.
`functionName` stands for `resource.labels.function_name`; `jsonPayload`
holds `JSON.stringify(jsonPayload)` for a present structured payload
(`none` when the payload is absent). -/
structure LogEntry where
  severity : String
  timestamp : String
  functionName : Option String
  textPayload : Option String
  jsonPayload : Option String
  protoPayload : Option ProtoPayload
  insertId : String
deriving DecidableEq

/-- A JavaScript value as it can appear in the `payloadData` variable of
`printLogs`: a string, or the `protoPayload` object. -/
inductive JsValue where
  | str (s : String)
  | obj (p : ProtoPayload)
deriving DecidableEq

/-- ES `padEnd(s, n)` with the default single-space fill. -/
def padEndJS (s : String) (n : Nat) : String :=
  if n ≤ s.length then s
  else s ++ String.mk (List.replicate (n - s.length) ' ')

/-- `chalk.red`. -/
def chalkRed (s : String) : String := "\x1b[31m" ++ s ++ "\x1b[39m"

/-- `chalk.cyan`. -/
def chalkCyan (s : String) : String := "\x1b[36m" ++ s ++ "\x1b[39m"

/-- `chalk.green`. -/
def chalkGreen (s : String) : String := "\x1b[32m" ++ s ++ "\x1b[39m"

/-- `chalk.magenta`. -/
def chalkMagenta (s : String) : String := "\x1b[35m" ++ s ++ "\x1b[39m"

/-- `chalk.yellow`. -/
def chalkYellow (s : String) : String := "\x1b[33m" ++ s ++ "\x1b[39m"

/-- `String(v)` for the inherited `Object.prototype` member named `s`:
the `__proto__` getter yields `Object.prototype` itself (printed
`[object Object]`), `constructor` is the `Object` function, and the rest
are native methods of the same name. -/
def protoMemberString (s : String) : String :=
  if s = "__proto__" then "[object Object]"
  else if s = "constructor" then "function Object() \x7b [native code] \x7d"
  else "function " ++ s ++ "() \x7b [native code] \x7d"

/-- `coloredStringMap[severity] || severity` followed by `String(...)`
(lines 370-377): the five own keys give chalk-coloured labels; any other
key falls through to `Object.prototype`, whose truthy members shadow the
`|| severity` fallback. -/
def coloredStringMapLookup (severity : String) : String :=
  if severity = "ERROR" then chalkRed severity
  else if severity = "INFO" then chalkCyan severity
  else if severity = "DEBUG" then chalkGreen severity
  else if severity = "NOTICE" then chalkMagenta severity
  else if severity = "WARNING" then chalkYellow severity
  else if isProtoProp severity then protoMemberString severity
  else severity

/-- The final `coloredSeverity` value of line 378: the looked-up label
padded with `padEnd(..., 20)`. -/
def coloredSeverity (severity : String) : String :=
  padEndJS (coloredStringMapLookup severity) 20

/-- Modelled from the spec: `ERROR.NO_FUNCTION_NAME` (utils.ts, not under
src/), the fixed placeholder used when an entry has no function name. -/
def ERROR_NO_FUNCTION_NAME : String := "N/A"

/-- Modelled from the spec: `ERROR.PAYLOAD_UNKNOWN` (utils.ts, not under
src/), the fixed placeholder for an entry with no recognised payload. -/
def ERROR_PAYLOAD_UNKNOWN : String := "Payload unknown."

/-- Modelled from the spec: `LOG.STACKDRIVER_SETUP` (utils.ts, not under
src/), the fixed "setup" message substituted for audit-log payloads. -/
def LOG_STACKDRIVER_SETUP : String := "Setting up StackDriver Logging."

/-- The `"@type"` tag marking a `protoPayload` as an audit-log record
(line 362). -/
def auditLogType : String := "type.googleapis.com/google.cloud.audit.AuditLog"

/-- `functionName ? padEnd(functionName, 15) : ERROR.NO_FUNCTION_NAME`
(lines 348-349); an absent or empty name is falsy. -/
def functionNameField (e : LogEntry) : String :=
  match e.functionName with
  | some s => if s = "" then ERROR_NO_FUNCTION_NAME else padEndJS s 15
  | none => ERROR_NO_FUNCTION_NAME

/-- The `||` chain of line 361:
`data.textPayload || data.jsonPayload || data.protoPayload ||
ERROR.PAYLOAD_UNKNOWN`, where `data.jsonPayload` is the stringified
payload truncated with `.substr(0, 255)` (line 358). -/
def selectPayload (e : LogEntry) : JsValue :=
  let t := e.textPayload.getD ""
  if t ≠ "" then .str t
  else
    let j := (e.jsonPayload.map (fun s => s.take 255)).getD ""
    if j ≠ "" then .str j
    else
      match e.protoPayload with
      | some p => .obj p
      | none => .str ERROR_PAYLOAD_UNKNOWN

/-- Lines 361-368 of `printLogs` in non-JSON mode: the audit-log override
and the 20-character padding of string payloads.  Returns the displayed
payload string (a non-string payload is rendered `[object Object]` by the
template literal of line 381) and the function-name field. -/
def nonJsonPayloadAndFn (e : LogEntry) : String × String :=
  match selectPayload e with
  | .obj p =>
    if p.atType = some auditLogType then
      let payloadData := LOG_STACKDRIVER_SETUP
      (if payloadData = "" then payloadData else padEndJS payloadData 20,
       padEndJS p.methodName 15)
    else ("[object Object]", functionNameField e)
  | .str s => (if s = "" then s else padEndJS s 20, functionNameField e)

/-- A plain serialisation of the entry model, standing for
`JSON.stringify(entries[i], null, 2)` (line 352).  Its exact shape plays
no role in any property below. -/
def jsonStringifyEntry (e : LogEntry) : String :=
  "\x7b \"severity\": \"" ++ e.severity
    ++ "\", \"timestamp\": \"" ++ e.timestamp
    ++ "\", \"insertId\": \"" ++ e.insertId ++ "\" \x7d"

/-- The line printed for one entry (line 381):
`coloredSeverity timestamp functionName payloadData`, with `payloadData`
chosen by `cmd.json` (lines 351-369). -/
def renderLine (jsonMode : Bool) (e : LogEntry) : String :=
  let pf := if jsonMode then (jsonStringifyEntry e, functionNameField e)
            else nonJsonPayloadAndFn e
  coloredSeverity e.severity ++ " " ++ e.timestamp ++ " " ++ pf.2 ++ " " ++ pf.1

/-- The loop body of `printLogs` (lines 346-384) over the already
reversed-and-capped list: skip an entry whose id is truthy in the cache,
otherwise print it and mark its id.  Returns the final cache and the
entries printed, in print order. -/
def printLogsGo : DedupCache → List LogEntry → DedupCache × List LogEntry
  | c, [] => (c, [])
  | c, e :: rest =>
    if cacheLookupTruthy c e.insertId then printLogsGo c rest
    else
      let r := printLogsGo (cacheMark c e.insertId) rest
      (r.1, e :: r.2)

/-- `printLogs(entries)` (lines 344-385) at the level of which entries
get printed: the absent batch defaults to `[]`, the batch is reversed
into ascending order (line 345), and the loop condition
`i < 50 && entries ? i < entries.length : i < 0` caps iteration at
`min 50 length`. -/
def printLogsSelected (c : DedupCache) (entries : Option (List LogEntry)) :
    DedupCache × List LogEntry :=
  printLogsGo c (((entries.getD []).reverse).take 50)

/-- `printLogs` including rendering: the lines written to the console,
one per printed entry. -/
def printLogs (jsonMode : Bool) (c : DedupCache) (entries : Option (List LogEntry)) :
    DedupCache × List String :=
  let r := printLogsSelected c entries
  (r.1, r.2.map (renderLine jsonMode))

/-- A session: the batches handed to `printLogs` one after another, all
sharing the one `logEntryCache` of the `logs` invocation.  Returns the
final cache and every entry printed, in order. -/
def runSessionGo : DedupCache → List (Option (List LogEntry)) → DedupCache × List LogEntry
  | c, [] => (c, [])
  | c, b :: bs =>
    let r1 := printLogsSelected c b
    let r2 := runSessionGo r1.1 bs
    (r2.1, r1.2 ++ r2.2)

/-- The entries printed over a whole session started with the fresh cache
of line 338. -/
def sessionPrinted (bs : List (Option (List LogEntry))) : List LogEntry :=
  (runSessionGo emptyCache bs).2

/-- The lines printed over a whole session. -/
def sessionLines (jsonMode : Bool) (bs : List (Option (List LogEntry))) : List String :=
  (sessionPrinted bs).map (renderLine jsonMode)

/-- How many printed entries carry a given insertion id. -/
def countId (id : String) (es : List LogEntry) : Nat :=
  (es.filter (fun e => e.insertId = id)).length

/-- Modelled from the spec: `ERROR.UNAUTHENTICATED_LOCAL` (utils.ts, not
under src/), the local-credential unauthenticated message. -/
def ERROR_UNAUTHENTICATED_LOCAL : String :=
  "Error: Local credentials are unauthenticated."

/-- Modelled from the spec: `ERROR.UNAUTHENTICATED` (utils.ts, not under
src/), the shared-credential unauthenticated message. -/
def ERROR_UNAUTHENTICATED : String := "Error: Unauthenticated."

/-- Modelled from the spec: `ERROR.PERMISSION_DENIED_LOCAL` (utils.ts,
not under src/), the local-credential permission-denied message. -/
def ERROR_PERMISSION_DENIED_LOCAL : String :=
  "Error: Permission denied with local credentials."

/-- Modelled from the spec: `ERROR.PERMISSION_DENIED` (utils.ts, not
under src/), the shared-credential permission-denied message. -/
def ERROR_PERMISSION_DENIED : String := "Error: Permission denied."

/-- The generic transport-error message of line 473:
`` `(${logs.status}) Error: ${logs.statusText}` ``. -/
def genericStatusMessage (status : Nat) (statusText : String) : String :=
  "(" ++ Nat.repr status ++ ") Error: " ++ statusText

/-- The response of `logger.entries.list` as read by `fetchAndPrintLogs`
(lines 452-476): the HTTP status, its text, and `logs.data.entries`. -/
structure ListLogsResponse where
  status : Nat
  statusText : String
  entries : Option (List LogEntry)
deriving DecidableEq

/-- Lines 463-477 of `fetchAndPrintLogs`: on a non-200 status the switch
picks the message for the status (401 unauthenticated, 403 permission
denied, both split on `oauthSettings.isLocalCreds`, otherwise the generic
status message); on 200 the batch goes to `printLogs`.  Modelled from the
spec for the part outside src/: `logError` (utils.ts) reports its message
once and aborts the current invocation (spec section 7: each error is
reported exactly once and aborts only the current tick), so the
break-less `switch` reports only the first matching case.  Returns the
cache, the printed lines, and the error messages reported. -/
def handleLogsResponse (isLocalCreds jsonMode : Bool) (c : DedupCache)
    (r : ListLogsResponse) : DedupCache × List String × List String :=
  if r.status ≠ 200 then
    let msg :=
      if r.status = 401 then
        if isLocalCreds then ERROR_UNAUTHENTICATED_LOCAL else ERROR_UNAUTHENTICATED
      else if r.status = 403 then
        if isLocalCreds then ERROR_PERMISSION_DENIED_LOCAL else ERROR_PERMISSION_DENIED
      else genericStatusMessage r.status r.statusText
    (c, [], [msg])
  else
    let pr := printLogs jsonMode c r.entries
    (pr.1, pr.2, [])

/-- Two-digit zero padding for ISO-8601 fields. -/
def pad2 (n : Nat) : String :=
  if n < 10 then "0" ++ Nat.repr n else Nat.repr n

/-- Three-digit zero padding for the millisecond field. -/
def pad3 (n : Nat) : String :=
  if n < 10 then "00" ++ Nat.repr n
  else if n < 100 then "0" ++ Nat.repr n
  else Nat.repr n

/-- Four-digit zero padding for the year field. -/
def pad4 (n : Nat) : String :=
  if n < 10 then "000" ++ Nat.repr n
  else if n < 100 then "00" ++ Nat.repr n
  else if n < 1000 then "0" ++ Nat.repr n
  else Nat.repr n

/-- Gregorian date from a day count since 1970-01-01 (the standard
civil-from-days computation), for instants at or after the epoch. -/
def civilFromDays (days : Nat) : Nat × Nat × Nat :=
  let z := days + 719468
  let era := z / 146097
  let doe := z % 146097
  let yoe := (doe - doe / 1460 + doe / 36524 - doe / 146096) / 365
  let y := yoe + era * 400
  let doy := doe - (365 * yoe + yoe / 4 - yoe / 100)
  let mp := (5 * doy + 2) / 153
  let d := doy - (153 * mp + 2) / 5 + 1
  let m := if mp < 10 then mp + 3 else mp - 9
  (if m ≤ 2 then y + 1 else y, m, d)

/-- `Date.prototype.toISOString` for epoch milliseconds; the model covers
the post-1970 instants the watch loop produces. -/
def toISOString (ms : Int) : String :=
  let t := ms.toNat
  let msPart := t % 1000
  let totalSecs := t / 1000
  let s := totalSecs % 60
  let mi := (totalSecs / 60) % 60
  let h := (totalSecs / 3600) % 24
  let ymd := civilFromDays (totalSecs / 86400)
  pad4 ymd.1 ++ "-" ++ pad2 ymd.2.1 ++ "-" ++ pad2 ymd.2.2 ++ "T"
    ++ pad2 h ++ ":" ++ pad2 mi ++ ":" ++ pad2 s ++ "." ++ pad3 msPart ++ "Z"

/-- `const POLL_INTERVAL = 6000` (line 483). -/
def POLL_INTERVAL : Nat := 6000

/-- Lines 485-486: `startDate.setSeconds(startDate.getSeconds() -
(10 * POLL_INTERVAL) / 1000)` subtracts that many whole seconds from the
tick's current time (in epoch milliseconds). -/
def watchStartDate (now : Int) : Int :=
  now - 1000 * (((10 * POLL_INTERVAL) / 1000 : Nat) : Int)

/-- Lines 448-451 of `fetchAndPrintLogs`: the filter string is empty
without a start date, else `timestamp >= "<ISO8601>"`. -/
def logFilter : Option Int → String
  | none => ""
  | some startDate => "timestamp >= \"" ++ toISOString startDate ++ "\""

/-- The filter issued by one watch-mode tick at time `now` (lines 484-487
feeding lines 448-451). -/
def watchTickFilter (now : Int) : String :=
  logFilter (some (watchStartDate now))

/-- The configuration record of the `logs` command (line 329):
`cmd: { json: boolean; open: boolean; setup: boolean; watch: boolean }`. -/
structure LogsCmd where
  json : Bool
  «open» : Bool
  setup : Bool
  watch : Bool
deriving DecidableEq

/-- Every value of the configuration record. -/
def allLogsCmds : List LogsCmd :=
  [false, true].flatMap fun a =>
    [false, true].flatMap fun b =>
      [false, true].flatMap fun c =>
        [false, true].map fun d => ⟨a, b, c, d⟩

/-- The interval passed to `setInterval` in the watch branch (line 488):
the hardcoded `POLL_INTERVAL`, whatever the configuration record holds. -/
def watchSetIntervalMs (_cmd : LogsCmd) : Nat := POLL_INTERVAL

/-- A text-payload entry for the concrete scenarios. -/
def mkTextEntry (sev ts fn text id : String) : LogEntry :=
  ⟨sev, ts, some fn, some text, none, none, id⟩

/-- The 3-entry batch of Scenario B (claim C1), newest first. -/
def batchB : List LogEntry :=
  [mkTextEntry "INFO" "2020-01-01T00:00:03.000Z" "myFn" "three" "b-id3",
   mkTextEntry "INFO" "2020-01-01T00:00:02.000Z" "myFn" "two" "b-id2",
   mkTextEntry "INFO" "2020-01-01T00:00:01.000Z" "myFn" "one" "b-id1"]

/-- The three entries of Scenario A (claim C3), `sa1` oldest. -/
def sa1 : LogEntry :=
  mkTextEntry "INFO" "2020-05-05T10:00:01.000Z" "fnA" "first" "a-id1"

/-- Second entry of Scenario A. -/
def sa2 : LogEntry :=
  mkTextEntry "DEBUG" "2020-05-05T10:00:02.000Z" "fnA" "second" "a-id2"

/-- Third (newest) entry of Scenario A. -/
def sa3 : LogEntry :=
  mkTextEntry "ERROR" "2020-05-05T10:00:03.000Z" "fnA" "third" "a-id3"

/-- The audit-log protoPayload of Scenario C (claim C5). -/
def auditPayload : ProtoPayload := ⟨some auditLogType, "script.run"⟩

/-- The audit-log entry of Scenario C: no text or structured payload, a
protoPayload tagged as an audit-log record, and an ordinary function
name that the override must displace. -/
def auditEntry : LogEntry :=
  ⟨"NOTICE", "2020-05-05T10:00:04.000Z", some "realFn", none, none,
   some auditPayload, "c-id1"⟩

/-- An entry whose insertion id collides with an inherited
`Object.prototype` member (claim C10). -/
def protoIdEntry : LogEntry :=
  mkTextEntry "INFO" "2020-05-05T10:00:05.000Z" "fnP" "hello" "toString"

/-- The burst batch of claim C9: 51 entries, newest first; entry `k` has
timestamp second `50 - k` and id `b<k>`, so `b0` is the newest. -/
def batch51 : List LogEntry :=
  (List.range 51).map fun k =>
    mkTextEntry "INFO" ("2020-01-01T00:00:" ++ pad2 (50 - k) ++ ".000Z")
      "burstFn" "payload" ("b" ++ Nat.repr k)

/-- The closed set of severities with own keys in `coloredStringMap`
(lines 370-376). -/
def knownSeverities : List String := ["ERROR", "INFO", "DEBUG", "NOTICE", "WARNING"]

/-- Entry `a` is strictly earlier than entry `b`: lexicographic order on
the timestamp characters, which coincides with chronological order for
the fixed-width ISO-8601 UTC format StackDriver returns. -/
def tsEarlier (a b : LogEntry) : Prop := a.timestamp.data < b.timestamp.data

instance : DecidableRel tsEarlier := fun a b =>
  inferInstanceAs (Decidable (a.timestamp.data < b.timestamp.data))

theorem cacheMark_keys_subset (c : DedupCache) (id : String) :
    c.keys ⊆ (cacheMark c id).keys := by
  unfold cacheMark
  split
  · exact List.Subset.refl _
  · exact List.subset_cons_self _ _

theorem printLogsGo_keys_subset (es : List LogEntry) (c : DedupCache) :
    c.keys ⊆ (printLogsGo c es).1.keys := by
  induction es generalizing c with
  | nil => exact List.Subset.refl _
  | cons e rest ih =>
    simp only [printLogsGo]
    split
    · exact ih c
    · exact (cacheMark_keys_subset c e.insertId).trans (ih _)

theorem cacheLookupTruthy_of_subset {c c' : DedupCache} (h : c.keys ⊆ c'.keys)
    {id : String} (ht : cacheLookupTruthy c id = true) :
    cacheLookupTruthy c' id = true := by
  unfold cacheLookupTruthy at ht ⊢
  split at ht
  · simp [h (by assumption)]
  · split
    · rfl
    · exact ht

theorem printLogsGo_lookup_mono (es : List LogEntry) (c : DedupCache)
    {id : String} (h : cacheLookupTruthy c id = true) :
    cacheLookupTruthy (printLogsGo c es).1 id = true :=
  cacheLookupTruthy_of_subset (printLogsGo_keys_subset es c) h

theorem printLogsGo_sublist (es : List LogEntry) (c : DedupCache) :
    (printLogsGo c es).2.Sublist es := by
  induction es generalizing c with
  | nil => simp [printLogsGo]
  | cons e rest ih =>
    simp only [printLogsGo]
    split
    · exact (ih c).cons e
    · exact (ih _).cons₂ e

theorem countId_nil (id : String) : countId id [] = 0 := rfl

theorem countId_cons (id : String) (e : LogEntry) (l : List LogEntry) :
    countId id (e :: l) =
      (if e.insertId = id then 1 else 0) + countId id l := by
  simp only [countId, List.filter_cons]
  by_cases h : e.insertId = id
  · simp [h]
    omega
  · simp [h]

theorem printLogsGo_count_zero (es : List LogEntry) (c : DedupCache)
    {id : String} (h : cacheLookupTruthy c id = true) :
    countId id (printLogsGo c es).2 = 0 := by
  induction es generalizing c with
  | nil => simp [printLogsGo, countId]
  | cons e rest ih =>
    by_cases hskip : cacheLookupTruthy c e.insertId = true
    · simp only [printLogsGo, hskip, if_true]
      exact ih c h
    · have hne : e.insertId ≠ id := by
        intro heq
        rw [heq] at hskip
        exact hskip h
      have h' : cacheLookupTruthy (cacheMark c e.insertId) id = true :=
        cacheLookupTruthy_of_subset (cacheMark_keys_subset c e.insertId) h
      simp only [printLogsGo, hskip, Bool.false_eq_true, if_false]
      rw [countId_cons]
      simp [hne]
      exact ih _ h'

theorem lookup_mark_self {c : DedupCache} {id : String}
    (h : cacheLookupTruthy c id = false) :
    cacheLookupTruthy (cacheMark c id) id = true := by
  have hproto : isProtoProp id = false := by
    unfold cacheLookupTruthy at h
    split at h
    · exact absurd h (by simp)
    · exact h
  have hne : id ≠ "__proto__" := by
    intro heq
    rw [heq] at hproto
    simp [isProtoProp, objectProtoProps] at hproto
  unfold cacheMark cacheLookupTruthy
  simp [hne]

theorem printLogsGo_count_le_one (es : List LogEntry) (c : DedupCache)
    (id : String) :
    countId id (printLogsGo c es).2 ≤ 1 := by
  induction es generalizing c with
  | nil => simp [printLogsGo, countId]
  | cons e rest ih =>
    by_cases hskip : cacheLookupTruthy c e.insertId = true
    · simp only [printLogsGo, hskip, if_true]
      exact ih c
    · simp only [printLogsGo, hskip, Bool.false_eq_true, if_false]
      rw [countId_cons]
      by_cases heq : e.insertId = id
      · have hmarked : cacheLookupTruthy (cacheMark c e.insertId) id = true := by
          rw [heq] at hskip ⊢
          exact lookup_mark_self (Bool.of_not_eq_true hskip)
        have hz := printLogsGo_count_zero rest (cacheMark c e.insertId) hmarked
        simp only [heq] at hz ⊢
        simp [hz]
      · simp only [heq, if_false]
        simpa using ih (cacheMark c e.insertId)

theorem printLogsGo_lookup_of_count_pos (es : List LogEntry) (c : DedupCache)
    {id : String} (h : 1 ≤ countId id (printLogsGo c es).2) :
    cacheLookupTruthy (printLogsGo c es).1 id = true := by
  induction es generalizing c with
  | nil => simp [printLogsGo, countId] at h
  | cons e rest ih =>
    by_cases hskip : cacheLookupTruthy c e.insertId = true
    · simp only [printLogsGo, hskip, if_true] at h ⊢
      exact ih c h
    · simp only [printLogsGo, hskip, Bool.false_eq_true, if_false] at h ⊢
      by_cases heq : e.insertId = id
      · have hmarked : cacheLookupTruthy (cacheMark c e.insertId) id = true := by
          rw [heq] at hskip ⊢
          exact lookup_mark_self (Bool.of_not_eq_true hskip)
        exact printLogsGo_lookup_mono rest _ hmarked
      · rw [countId_cons] at h
        simp only [heq, if_false] at h
        exact ih _ (by simpa using h)

theorem countId_append (id : String) (l1 l2 : List LogEntry) :
    countId id (l1 ++ l2) = countId id l1 + countId id l2 := by
  simp [countId, List.filter_append]

theorem printLogsSelected_keys_subset (b : Option (List LogEntry)) (c : DedupCache) :
    c.keys ⊆ (printLogsSelected c b).1.keys :=
  printLogsGo_keys_subset _ c

theorem printLogsSelected_lookup_mono (b : Option (List LogEntry)) (c : DedupCache)
    {id : String} (h : cacheLookupTruthy c id = true) :
    cacheLookupTruthy (printLogsSelected c b).1 id = true :=
  printLogsGo_lookup_mono _ c h

theorem printLogsSelected_count_zero (b : Option (List LogEntry)) (c : DedupCache)
    {id : String} (h : cacheLookupTruthy c id = true) :
    countId id (printLogsSelected c b).2 = 0 :=
  printLogsGo_count_zero _ c h

theorem printLogsSelected_count_le_one (b : Option (List LogEntry)) (c : DedupCache)
    (id : String) :
    countId id (printLogsSelected c b).2 ≤ 1 :=
  printLogsGo_count_le_one _ c id

theorem printLogsSelected_lookup_of_count_pos (b : Option (List LogEntry))
    (c : DedupCache) {id : String}
    (h : 1 ≤ countId id (printLogsSelected c b).2) :
    cacheLookupTruthy (printLogsSelected c b).1 id = true :=
  printLogsGo_lookup_of_count_pos _ c h

theorem runSessionGo_count_zero (bs : List (Option (List LogEntry)))
    (c : DedupCache) {id : String} (h : cacheLookupTruthy c id = true) :
    countId id (runSessionGo c bs).2 = 0 := by
  induction bs generalizing c with
  | nil => simp [runSessionGo, countId]
  | cons b rest ih =>
    simp only [runSessionGo, countId_append]
    have h1 := printLogsSelected_count_zero b c h
    have h2 := ih _ (printLogsSelected_lookup_mono b c h)
    omega

theorem runSessionGo_count_le_one (bs : List (Option (List LogEntry)))
    (c : DedupCache) (id : String) :
    countId id (runSessionGo c bs).2 ≤ 1 := by
  induction bs generalizing c with
  | nil => simp [runSessionGo, countId]
  | cons b rest ih =>
    simp only [runSessionGo, countId_append]
    by_cases hpos : 1 ≤ countId id (printLogsSelected c b).2
    · have hl := printLogsSelected_lookup_of_count_pos b c hpos
      have h2 := runSessionGo_count_zero rest _ hl
      have h1 := printLogsSelected_count_le_one b c id
      omega
    · have h2 := ih (printLogsSelected c b).1
      omega

example : toISOString 0 = "1970-01-01T00:00:00.000Z" := by decide
example : toISOString 1480460400000 = "2016-11-29T23:00:00.000Z" := by decide
example : padEndJS "abc" 6 = "abc   " := by decide
example : padEndJS "abcdefg" 6 = "abcdefg" := by decide
example : coloredSeverity "FANCY" = "FANCY               " := by decide
example : isProtoProp "toString" = true := by decide
example :
    (printLogsSelected emptyCache
      (some [⟨"INFO", "t2", none, some "b", none, none, "i2"⟩,
             ⟨"INFO", "t1", none, some "a", none, none, "i1"⟩])).2.map
      (fun e => e.insertId) = ["i1", "i2"] := by decide

/-- C1: over a whole session (any sequence of batches sharing the one
`logEntryCache`), each insertion identifier is printed at most once, and
Scenario B: feeding the same 3-entry batch to `printLogs` twice produces
3 printed lines, not 6. -/
theorem c1_dedup_at_most_once :
    (∀ (bs : List (Option (List LogEntry))) (id : String),
      countId id (sessionPrinted bs) ≤ 1) ∧
    (sessionLines false [some batchB, some batchB]).length = 3 := by
  constructor
  · intro bs id
    exact runSessionGo_count_le_one bs emptyCache id
  · decide

/-- C2: `printLogs` never prints more than 50 lines for any batch, in any
mode and from any cache state; an absent batch and an empty batch print
nothing. -/
theorem c2_batch_cap_50 (jsonMode : Bool) (c : DedupCache)
    (b : Option (List LogEntry)) :
    (printLogs jsonMode c b).2.length ≤ 50 ∧
    (printLogs jsonMode c none).2 = [] ∧
    (printLogs jsonMode c (some [])).2 = [] := by
  refine ⟨?_, rfl, rfl⟩
  have h1 : (printLogsSelected c b).2.length ≤ ((b.getD []).reverse.take 50).length :=
    (printLogsGo_sublist _ c).length_le
  have h2 : ((b.getD []).reverse.take 50).length ≤ 50 := by
    rw [List.length_take]
    exact Nat.min_le_left _ _
  simp only [printLogs, List.length_map]
  omega

/-- C3: a batch whose entries arrive in strictly descending timestamp
order prints in strictly ascending timestamp order, and Scenario A: the
batch `[T3, T2, T1]` with unique fresh ids prints exactly the three lines
for `T1`, `T2`, `T3` in that order. -/
theorem c3_reversal_ascending (c : DedupCache) (entries : List LogEntry)
    (hdesc : entries.Pairwise fun a b => tsEarlier b a) :
    ((printLogsSelected c (some entries)).2.Pairwise tsEarlier) ∧
    (printLogs false emptyCache (some [sa3, sa2, sa1])).2 =
      [renderLine false sa1, renderLine false sa2, renderLine false sa3] := by
  constructor
  · have h1 : entries.reverse.Pairwise tsEarlier := by
      rw [List.pairwise_reverse]
      exact hdesc
    have h2 : (entries.reverse.take 50).Pairwise tsEarlier :=
      h1.sublist (List.take_sublist _ _)
    exact h2.sublist (printLogsGo_sublist _ c)
  · decide

/-- Witness for C3 at the concrete Scenario A batch. -/
theorem c3_witness :
    ([sa3, sa2, sa1].Pairwise fun a b => tsEarlier b a) ∧
    ((printLogsSelected emptyCache (some [sa3, sa2, sa1])).2.Pairwise tsEarlier) :=
  ⟨by decide, (c3_reversal_ascending emptyCache [sa3, sa2, sa1] (by decide)).1⟩

/-- C10: an entry whose insertion id names an inherited
`Object.prototype` member is truthy in the fresh cache already, so it is
never printed at any point of a session. -/
theorem c10_proto_id_never_printed (bs : List (Option (List LogEntry)))
    (id : String) (h : isProtoProp id = true) :
    countId id (sessionPrinted bs) = 0 := by
  have hl : cacheLookupTruthy emptyCache id = true := by
    simp [cacheLookupTruthy, emptyCache, h]
  exact runSessionGo_count_zero bs emptyCache hl

/-- Witness for C10: the id `"toString"` is such a member name, and the
entry carrying it is dropped on its first and only occurrence. -/
theorem c10_witness :
    isProtoProp "toString" = true ∧
    countId "toString" (sessionPrinted [some [protoIdEntry]]) = 0 :=
  ⟨by decide,
   c10_proto_id_never_printed [some [protoIdEntry]] "toString" (by decide)⟩

/-- C4 (amended): the five known severities map to the chalk colour tags
of the stated colours, and an unrecognized severity passes through
unmodified provided it does not name an inherited `Object.prototype`
member; in every case the result is padded to 20 characters.  The
formatter is a plain function of the severity string, hence
deterministic. -/
theorem c4_severity_formatter :
    coloredSeverity "ERROR" = padEndJS (chalkRed "ERROR") 20 ∧
    coloredSeverity "INFO" = padEndJS (chalkCyan "INFO") 20 ∧
    coloredSeverity "DEBUG" = padEndJS (chalkGreen "DEBUG") 20 ∧
    coloredSeverity "NOTICE" = padEndJS (chalkMagenta "NOTICE") 20 ∧
    coloredSeverity "WARNING" = padEndJS (chalkYellow "WARNING") 20 ∧
    ∀ s : String, s ∉ knownSeverities → isProtoProp s = false →
      coloredSeverity s = padEndJS s 20 := by
  refine ⟨rfl, rfl, rfl, rfl, rfl, ?_⟩
  intro s hk hp
  simp only [knownSeverities, List.mem_cons, List.mem_singleton] at hk
  push_neg at hk
  obtain ⟨h1, h2, h3, h4, h5, -⟩ := hk
  simp [coloredSeverity, coloredStringMapLookup, h1, h2, h3, h4, h5, hp]

/-- Counterexample to C4 as stated: the unrecognized severity
`"toString"` is not returned unmodified, because the plain-object colour
map finds the inherited `Object.prototype.toString` member. -/
theorem c4_counterexample :
    coloredSeverity "toString" ≠ padEndJS "toString" 20 := by decide

/-- Witness for C4 at the unrecognized severity `"CRITICAL"`. -/
theorem c4_witness :
    "CRITICAL" ∉ knownSeverities ∧ isProtoProp "CRITICAL" = false ∧
    coloredSeverity "CRITICAL" = padEndJS "CRITICAL" 20 :=
  ⟨by decide, by decide,
   c4_severity_formatter.2.2.2.2.2 "CRITICAL" (by decide) (by decide)⟩

/-- C5: in non-JSON mode, an entry whose selected payload is the
structured protoPayload tagged as an audit-log record renders with the
fixed setup message (padded to 20) as the payload and with the audit
method name, padded to 15, as the function-name field — displacing the
entry's own function name. -/
theorem c5_audit_override (e : LogEntry) (p : ProtoPayload)
    (hsel : selectPayload e = JsValue.obj p)
    (haud : p.atType = some auditLogType) :
    renderLine false e =
      coloredSeverity e.severity ++ " " ++ e.timestamp ++ " "
        ++ padEndJS p.methodName 15 ++ " "
        ++ padEndJS LOG_STACKDRIVER_SETUP 20 := by
  have hne : LOG_STACKDRIVER_SETUP ≠ "" := by decide
  simp [renderLine, nonJsonPayloadAndFn, hsel, haud, hne]

/-- Witness for C5 at the concrete audit-log entry of Scenario C. -/
theorem c5_witness :
    renderLine false auditEntry =
      coloredSeverity auditEntry.severity ++ " " ++ auditEntry.timestamp ++ " "
        ++ padEndJS auditPayload.methodName 15 ++ " "
        ++ padEndJS LOG_STACKDRIVER_SETUP 20 :=
  c5_audit_override auditEntry auditPayload (by decide) rfl

/-- C6: a 403 response under local credentials reports exactly the
local-specific permission-denied message; in particular the generic
transport message `(403) Error: ...` is not among the reported
messages. -/
theorem c6_permission_denied_local (statusText : String) (jsonMode : Bool)
    (c : DedupCache) :
    (handleLogsResponse true jsonMode c ⟨403, statusText, none⟩).2.2 =
      [ERROR_PERMISSION_DENIED_LOCAL] ∧
    handleLogsResponse true false emptyCache ⟨403, "Forbidden", none⟩ =
      (emptyCache, [], [ERROR_PERMISSION_DENIED_LOCAL]) ∧
    genericStatusMessage 403 "Forbidden" ∉
      (handleLogsResponse true false emptyCache ⟨403, "Forbidden", none⟩).2.2 := by
  refine ⟨?_, by decide, by decide⟩
  simp [handleLogsResponse]

/-- C7: every watch-mode tick at time `now` issues the filter
`timestamp >= "<ISO8601>"` whose lower bound is `now` minus ten poll
intervals, and ten intervals are 60000 ms. -/
theorem c7_watch_filter (now : Int) :
    watchTickFilter now =
      "timestamp >= \"" ++ toISOString (now - 10 * (POLL_INTERVAL : Int)) ++ "\"" ∧
    10 * (POLL_INTERVAL : Int) = 60000 := by
  have harg : watchStartDate now = now - 10 * (POLL_INTERVAL : Int) := by
    simp [watchStartDate, POLL_INTERVAL]
  exact ⟨by rw [watchTickFilter, logFilter, harg], by simp [POLL_INTERVAL]⟩

/-- Counterexample to C8 as stated: the configuration record of the
`logs` command has only the four boolean fields of line 329, and every
one of its 16 possible values leaves the watch interval at the hardcoded
6000 ms — no `pollIntervalMs` option exists to override it. -/
theorem c8_counterexample :
    (allLogsCmds.all fun cmd => watchSetIntervalMs cmd == 6000) = true ∧
    allLogsCmds.length = 16 := by decide

/-- C8 (amended): the configuration record recognizes only the booleans
`json`, `open`, `setup`, `watch`; watch mode always repeats on the fixed
default interval of 6000 ms, for every configuration. -/
theorem c8_fixed_interval (cmd : LogsCmd) :
    watchSetIntervalMs cmd = 6000 ∧ cmd ∈ allLogsCmds := by
  refine ⟨rfl, ?_⟩
  obtain ⟨a, b, c, d⟩ := cmd
  cases a <;> cases b <;> cases c <;> cases d <;> decide

/-- Counterexample to C9 as stated: a 51-entry burst, newest first, gets
50 lines printed, but the entry that loses visibility is the newest one
(`b0`), not the oldest. -/
theorem c9_counterexample :
    (batch51.Pairwise fun a b => tsEarlier b a) ∧
    batch51.length = 51 ∧
    (batch51.head?.map fun e => e.insertId) = some "b0" ∧
    (printLogsSelected emptyCache (some batch51)).2.length = 50 ∧
    countId "b0" (printLogsSelected emptyCache (some batch51)).2 = 0 := by
  decide

/-- C9 (amended): the printed entries of any batch form a subsequence of
the first 50 of the reversed (oldest-first) batch, so the entries beyond
the cap — the newest of the burst — are silently dropped; on the concrete
51-entry burst from a fresh cache exactly the 50 oldest are printed, in
ascending order. -/
theorem c9_oldest_kept :
    (∀ (entries : List LogEntry) (c : DedupCache),
      (printLogsSelected c (some entries)).2.Sublist (entries.reverse.take 50)) ∧
    (printLogsSelected emptyCache (some batch51)).2 = batch51.reverse.take 50 := by
  constructor
  · intro entries c
    exact printLogsGo_sublist _ c
  · decide
